import Mathlib

/-!
Verification development for the famly-archiver repository.

The Python sources under src are shallowly embedded here: pure string
and list manipulation is translated to executable Lean functions over
Char lists, network and filesystem effects of image acquisition are
abstracted as a success oracle on the requested URL, and the two
pipeline stages (famly_downloader.py building the metadata snapshot,
famly_generator.py rendering HTML from it) become total Lean functions.
-/

namespace Famly

/-! ## String primitives

Python string methods used by the sources (split, replace, startswith,
join) are reimplemented by structural recursion over Char lists so the
kernel can evaluate them on concrete inputs.  Semantics match CPython:
split on a separator keeps empty segments and splitting the empty
string yields one empty segment.
-/

/-- Split a character list at every occurrence of a separator
character, as Python str.split does for a one-character separator. -/
def splitChar (c : Char) : List Char → List (List Char)
  | [] => [[]]
  | x :: xs =>
    let r := splitChar c xs
    if x = c then [] :: r
    else
      match r with
      | h :: t => (x :: h) :: t
      | [] => [[x]]

/-- String wrapper around splitChar. -/
def sSplitChar (c : Char) (s : String) : List String :=
  (splitChar c s.data).map String.mk

/-- Replace every occurrence of a character by a replacement list, as
Python str.replace does for a one-character pattern. -/
def replaceChar (c : Char) (rep : List Char) : List Char → List Char
  | [] => []
  | x :: xs => if x = c then rep ++ replaceChar c rep xs else x :: replaceChar c rep xs

/-- String wrapper around replaceChar. -/
def sReplaceChar (c : Char) (rep : String) (s : String) : String :=
  String.mk (replaceChar c rep.data s.data)

/-- Characters strictly before the first occurrence of a marker
character; the whole list when the marker is absent. -/
def takeUntilChar (c : Char) : List Char → List Char
  | [] => []
  | x :: xs => if x = c then [] else x :: takeUntilChar c xs

/-- Suffix starting at the first occurrence of a marker character
(inclusive); empty when the marker is absent. -/
def dropUntilChar (c : Char) : List Char → List Char
  | [] => []
  | x :: xs => if x = c then x :: xs else dropUntilChar c xs

/-- Python html.escape with quote=True: ampersand first, then angle
brackets, then double and single quotes. -/
def htmlEscape (s : String) : String :=
  String.mk
    (replaceChar '\x27' "&#x27;".data
      (replaceChar '"' "&quot;".data
        (replaceChar '>' "&gt;".data
          (replaceChar '<' "&lt;".data
            (replaceChar '&' "&amp;".data s.data)))))

/-- Test whether the first character of a string is the given one, as
Python startswith does for a one-character argument. -/
def headIs (c : Char) (s : String) : Bool :=
  s.data.head? == some c

/-! ## Data model

Shapes of the JSON values consumed by the pipeline.  A field read with
dict.get and a default is modelled as an Option; a field read by plain
indexing (which the code requires to be present) is a plain field.
-/

/-- Raw embed tag on a feed record. -/
structure Embed where
  type : Option String
  observationId : Option String
deriving DecidableEq

/-- Sender object of a feed record; only the name field is read. -/
structure Sender where
  name : Option String
deriving DecidableEq

/-- One entry of the likes array of a feed record. -/
structure LikeEntry where
  reaction : Option String
  name : Option String
deriving DecidableEq

/-- Direct-URL image reference on a feed record.  The imageId field is
accessed by indexing in the source and is therefore required. -/
structure ImageRef where
  imageId : String
  url : Option String
  url_big : Option String
  width : Option Nat
  height : Option Nat
  createdAtDate : Option String
  tags : Option (List String)
deriving DecidableEq

/-- Secret bundle of an observation image, read by indexing except for
the optional expires token. -/
structure SecretRef where
  secretPrefix : String
  key : String
  path : String
  expires : Option String
deriving DecidableEq

/-- Observation image reference in GraphQL format. -/
structure ObsImage where
  id : String
  secret : SecretRef
  width : Option Nat
  height : Option Nat
deriving DecidableEq

/-- Development area descriptor inside an observation remark. -/
structure AreaInfo where
  title : String
deriving DecidableEq

/-- One tagged development area of a remark. -/
structure RemarkArea where
  area : AreaInfo
  refinement : Option String
deriving DecidableEq

/-- Remark of an observation. -/
structure Remark where
  richTextBody : Option String
  body : Option String
  areas : Option (List RemarkArea)
deriving DecidableEq

/-- Name object of the author of an observation. -/
structure ObsName where
  fullName : String
deriving DecidableEq

/-- Author object of an observation. -/
structure CreatedBy where
  name : ObsName
deriving DecidableEq

/-- One observation record from the side table of the feed export. -/
structure Observation where
  id : String
  createdBy : Option CreatedBy
  remark : Option Remark
  images : Option (List ObsImage)
deriving DecidableEq

/-- One raw feed record of the input document. -/
structure FeedRecord where
  feedItemId : Option String
  sender : Option Sender
  receivers : Option (List String)
  body : Option String
  richTextBody : Option String
  createdDate : Option String
  images : Option (List ImageRef)
  likes : Option (List LikeEntry)
  comments : Option (List String)
  embed : Option Embed
deriving DecidableEq

/-- Top-level input document. -/
structure FeedDocument where
  feedItems : Option (List FeedRecord)
  observations : Option (List Observation)
  exportDate : Option String
deriving DecidableEq

/-- Successful acquisition of a direct post image, as recorded in the
snapshot. -/
structure LocalImage where
  filename : String
  width : Nat
  height : Nat
  createdAt : String
  tags : List String
deriving DecidableEq

/-- Successful acquisition of an observation image, as recorded in the
snapshot. -/
structure ObsLocalImage where
  filename : String
  width : Nat
  height : Nat
  id : String
deriving DecidableEq

/-- One processed feed item of the metadata snapshot.  Every field is
written unconditionally by process_feed_item, so none is optional
except the raw embed tag, which is carried through as read. -/
structure ArchiveItem where
  feedItemId : String
  sender : Sender
  receivers : List String
  body : String
  richTextBody : String
  createdDate : String
  images : List LocalImage
  likes : List LikeEntry
  comments : List String
  embed : Option Embed
  observation_images : List ObsLocalImage
deriving DecidableEq

/-- Metadata snapshot written to metadata.json by the download stage
and consumed by the generation stage. -/
structure Snapshot where
  processed_items : List ArchiveItem
  observations : List (String × Observation)
  export_date : Option String
  total_items : Nat
deriving DecidableEq

/-! ## Observation lookup

The downloader builds a Python dict from observation id to observation
record; insertion order with last-write-wins is modelled by keeping the
pair list and resolving a key against the latest matching pair.
-/

/-- Lookup in the observation dict; the last binding of a key wins, as
repeated dict assignment does. -/
def dictLookup (pairs : List (String × Observation)) (k : String) : Option Observation :=
  (pairs.reverse.find? (fun p => p.1 == k)).map (fun p => p.2)

/-- Membership test corresponding to the Python in operator on the
observation dict. -/
def dictContains (pairs : List (String × Observation)) (k : String) : Bool :=
  (dictLookup pairs k).isSome

/-- Observation lookup built once from the observations array of the
feed document, keyed by the id field of each record. -/
def buildObservations (feed : FeedDocument) : List (String × Observation) :=
  (feed.observations.getD []).map (fun o => (o.id, o))

/-! ## ImageFetcher (famly_downloader.py, download_image and
download_observation_image)

Network transport, HTTP status checking and the file write are
abstracted into a success oracle fetchOk on the requested URL; any
failure inside the try block of the source makes the function return
the None sentinel.
-/

/-- Path component of a URL as CPython urlparse computes it for
absolute URLs: fragment and query are cut off, and for a
scheme-colon-slash-slash prefix the authority up to the next slash is
skipped; without such a prefix the remainder is the path. -/
def urlPathChars (l : List Char) : List Char :=
  let noFrag := takeUntilChar '#' l
  let noQuery := takeUntilChar '?' noFrag
  match dropUntilChar ':' noQuery with
  | ':' :: '/' :: '/' :: rest => dropUntilChar '/' rest
  | _ => noQuery

/-- Extension chosen by download_image: the final dot-delimited segment
of the URL path when the path contains a dot, else jpg, then truncated
at a question mark. -/
def extFromUrl (url : String) : String :=
  let pathParts := splitChar '.' (urlPathChars url.data)
  let ext := if pathParts.length > 1 then (pathParts.getLast?).getD [] else "jpg".data
  String.mk (takeUntilChar '?' ext)

/-- Embedding of download_image: on success the file written is named
from the image id and the derived extension and that name is returned;
any failure yields the None sentinel instead of an exception. -/
def downloadImage (fetchOk : String → Bool) (imageUrl imageId : String) : Option String :=
  if fetchOk imageUrl then some (imageId ++ "." ++ extFromUrl imageUrl) else none

/-- Percent-encoding applied to the expires token: colon first, then
plus, exactly as the source chains the two replace calls. -/
def encodeExpires (e : String) : String :=
  sReplaceChar '+' "%2B" (sReplaceChar ':' "%3A" e)

/-- URL constructed by download_observation_image from the secret
bundle, with width and height defaulting to 520 and 1040. -/
def observationImageUrl (img : ObsImage) : String :=
  let width := img.width.getD 520
  let height := img.height.getD 1040
  let base := img.secret.secretPrefix ++ "/" ++ img.secret.key ++ "/" ++
    toString width ++ "x" ++ toString height ++ "/" ++ img.secret.path
  match img.secret.expires with
  | some e => if e ≠ "" then base ++ "?expires=" ++ encodeExpires e else base
  | none => base

/-- Extension chosen by download_observation_image from the secret
path: final dot-delimited segment, else jpg; no query stripping here,
unlike download_image. -/
def extFromSecretPath (path : String) : String :=
  let parts := splitChar '.' path.data
  if parts.length > 1 then String.mk ((parts.getLast?).getD []) else "jpg"

/-- Embedding of download_observation_image under the same success
oracle abstraction as downloadImage. -/
def downloadObservationImage (fetchOk : String → Bool) (img : ObsImage) : Option String :=
  if fetchOk (observationImageUrl img) then
    some (img.id ++ "." ++ extFromSecretPath img.secret.path)
  else none

/-! ## ItemNormalizer (famly_downloader.py, process_feed_item) -/

/-- URL candidate selection of process_feed_item: the url_big value
when that key is present, else the url value.  Mirrors the nested
dict.get calls, whose default only applies when the key is absent. -/
def resolveImageUrl (image : ImageRef) : Option String :=
  match image.url_big with
  | some u => some u
  | none => image.url

/-- Per-image body of the download loop in process_feed_item: resolve
the URL, skip silently when it is absent or empty, otherwise attempt
the download and on success build the snapshot image entry. -/
def acquireDirect (fetchOk : String → Bool) (image : ImageRef) : Option LocalImage :=
  match resolveImageUrl image with
  | some imageUrl =>
    if imageUrl ≠ "" then
      match downloadImage fetchOk imageUrl image.imageId with
      | some fn =>
        some { filename := fn, width := image.width.getD 0, height := image.height.getD 0,
               createdAt := image.createdAtDate.getD "", tags := image.tags.getD [] }
      | none => none
    else none
  | none => none

/-- Observation-image part of process_feed_item: only an embed of type
Observation with a truthy observation id that resolves in the lookup
leads to downloads; every failed download is dropped. -/
def acquireObservationImages (fetchOk : String → Bool)
    (observations : List (String × Observation)) (embed : Option Embed) : List ObsLocalImage :=
  match embed with
  | some e =>
    if e.type == some "Observation" then
      match e.observationId with
      | some oid =>
        if oid ≠ "" then
          match dictLookup observations oid with
          | some obs =>
            match obs.images with
            | some imgs =>
              imgs.filterMap (fun oi =>
                match downloadObservationImage fetchOk oi with
                | some fn =>
                  some { filename := fn, width := oi.width.getD 0,
                         height := oi.height.getD 0, id := oi.id }
                | none => none)
            | none => []
          | none => []
        else []
      | none => []
    else []
  | none => []

/-- Embedding of process_feed_item: one snapshot item per record, with
the documented defaults for missing fields, the acquired direct images
in input order, and the raw embed tag carried through. -/
def processFeedItem (fetchOk : String → Bool)
    (observations : List (String × Observation)) (item : FeedRecord) : ArchiveItem :=
  { feedItemId := item.feedItemId.getD ""
    sender := item.sender.getD { name := none }
    receivers := item.receivers.getD []
    body := item.body.getD ""
    richTextBody := item.richTextBody.getD ""
    createdDate := item.createdDate.getD ""
    images := (item.images.getD []).filterMap (acquireDirect fetchOk)
    likes := item.likes.getD []
    comments := item.comments.getD []
    embed := item.embed
    observation_images := acquireObservationImages fetchOk observations item.embed }

/-! ## ArchivePipeline (famly_downloader.py, download_all_images) -/

/-- Sort key of the download stage: createdDate with missing values
treated as the empty string. -/
def sortKey (r : FeedRecord) : String :=
  r.createdDate.getD ""

/-- Ordering relation of the descending stable sort: a record comes
before another when its key is at least as large. -/
def feedOrder (a b : FeedRecord) : Prop :=
  sortKey b ≤ sortKey a

instance : DecidableRel feedOrder := fun a b => by
  unfold feedOrder; infer_instance

/-- Embedding of download_all_images: sort the records by createdDate
descending with a stable sort, process each in order, and assemble the
snapshot. -/
def downloadAllImages (fetchOk : String → Bool) (feed : FeedDocument) : Snapshot :=
  let feedItems := feed.feedItems.getD []
  let sorted := List.insertionSort feedOrder feedItems
  let observations := buildObservations feed
  let processedItems := sorted.map (processFeedItem fetchOk observations)
  { processed_items := processedItems
    observations := observations
    export_date := feed.exportDate
    total_items := processedItems.length }

/-! ## SiteRenderer (famly_generator.py)

The two HTML documents are pure functions of the snapshot plus the
date stamped into the page header.  The literal template text of the
two f-string headers is carried verbatim in the constants below, split
at the three interpolation points (export date, item count, photo
count).
-/

/-- Month names used by strftime %B. -/
def monthName : Nat → String
  | 1 => "January" | 2 => "February" | 3 => "March" | 4 => "April"
  | 5 => "May" | 6 => "June" | 7 => "July" | 8 => "August"
  | 9 => "September" | 10 => "October" | 11 => "November" | 12 => "December"
  | _ => ""

/-- Two-digit zero padding used by strftime %d, %I and %M. -/
def pad2 (n : Nat) : String :=
  if n < 10 then "0" ++ toString n else toString n

/-- Leap year rule of the Gregorian calendar. -/
def isLeap (y : Nat) : Bool :=
  (y % 4 == 0 && y % 100 != 0) || (y % 400 == 0)

/-- Number of days of a month, used to validate parsed dates. -/
def daysInMonth (y m : Nat) : Nat :=
  if m == 2 then (if isLeap y then 29 else 28)
  else if m == 4 || m == 6 || m == 9 || m == 11 then 30
  else 31

/-- Numeric value of a decimal digit character. -/
def digitVal (c : Char) : Option Nat :=
  if '0' ≤ c ∧ c ≤ '9' then some (c.toNat - '0'.toNat) else none

/-- Parse a fixed-width run of decimal digits. -/
def parseNatLen (l : List Char) (len : Nat) : Option Nat :=
  if l.length = len then
    l.foldl (fun acc c =>
      match acc, digitVal c with
      | some n, some d => some (n * 10 + d)
      | _, _ => none) (some 0)
  else none

/-- Parse the calendar-date part YYYY-MM-DD with range validation. -/
def parseDatePart (d : List Char) : Option (Nat × Nat × Nat) :=
  match splitChar '-' d with
  | [ys, ms, ds] => do
    let y ← parseNatLen ys 4
    let mo ← parseNatLen ms 2
    let da ← parseNatLen ds 2
    if 1 ≤ mo ∧ mo ≤ 12 ∧ 1 ≤ da ∧ da ≤ daysInMonth y mo then some (y, mo, da) else none
  | _ => none

/-- Parse a clock time HH:MM or HH:MM:SS (with optional fraction after
the seconds), returning hour and minute. -/
def parseTimeHM (t : List Char) : Option (Nat × Nat) :=
  match splitChar ':' t with
  | [hh, mm] => do
    let h ← parseNatLen hh 2
    let m ← parseNatLen mm 2
    if h < 24 ∧ m < 60 then some (h, m) else none
  | [hh, mm, ss] => do
    let h ← parseNatLen hh 2
    let m ← parseNatLen mm 2
    let s ← parseNatLen (takeUntilChar '.' ss) 2
    if h < 24 ∧ m < 60 ∧ s < 60 then some (h, m) else none
  | _ => none

/-- Separate a possible UTC-offset suffix introduced by a plus or a
minus sign from the clock-time part. -/
def splitOffsetSuffix (t : List Char) : Option (List Char × Option (List Char)) :=
  match splitChar '+' t with
  | [base] =>
    match splitChar '-' base with
    | [b] => some (b, none)
    | [b, off] => some (b, some off)
    | _ => none
  | [base, off] => some (base, some off)
  | _ => none

/-- Embedding of format_date: replace Z by +00:00, parse the result as
an ISO date or date-time (a deterministic model of
datetime.fromisoformat for the shapes the feed carries), and render it
as strftime does for the pattern month day, year at hour:minute AM/PM;
when parsing fails the raw string is returned unchanged. -/
def formatDate (dateStr : String) : String :=
  let s := replaceChar 'Z' "+00:00".data dateStr.data
  let parsed : Option (Nat × Nat × Nat × Nat × Nat) :=
    match splitChar 'T' s with
    | [d] => do
      let (y, mo, da) ← parseDatePart d
      some (y, mo, da, 0, 0)
    | [d, t] => do
      let (y, mo, da) ← parseDatePart d
      let (base, off) ← splitOffsetSuffix t
      let (h, mi) ← parseTimeHM base
      match off with
      | none => some (y, mo, da, h, mi)
      | some o => do
        let _ ← parseTimeHM o
        some (y, mo, da, h, mi)
    | _ => none
  match parsed with
  | none => dateStr
  | some (y, mo, da, h, mi) =>
    let h12 := if h % 12 = 0 then 12 else h % 12
    let ampm := if h < 12 then "AM" else "PM"
    monthName mo ++ " " ++ pad2 da ++ ", " ++ toString y ++ " at " ++
      pad2 h12 ++ ":" ++ pad2 mi ++ " " ++ ampm

def ixHeadA : String :=
  "<!DOCTYPE html>\n<html lang=\"en\">\n<head>\n    <meta charset=\"UTF-8\">\n    <meta name=\"viewport\" content=\"width=device-width, initial-scale=1.0\">\n    <title>Famly Feed Archive</title>\n    <style>\n        body \x7b\n            font-family: -apple-system, BlinkMacSystemFont, \x27Segoe UI\x27, Roboto, sans-serif;\n            max-width: 800px;\n            margin: 0 auto;\n            padding: 20px;\n            background-color: #f5f5f5;\n        \x7d\n        .feed-item \x7b\n            background: white;\n            border-radius: 12px;\n            margin-bottom: 24px;\n            padding: 20px;\n            box-shadow: 0 2px 8px rgba(0,0,0,0.1);\n        \x7d\n        .sender \x7b\n            display: flex;\n            align-items: center;\n            margin-bottom: 12px;\n        \x7d\n        .sender-image \x7b\n            width: 40px;\n            height: 40px;\n            border-radius: 50%;\n            margin-right: 12px;\n            background-color: #ddd;\n        \x7d\n        .sender-info \x7b\n            flex: 1;\n        \x7d\n        .sender-name \x7b\n            font-weight: 600;\n            color: #333;\n        \x7d\n        .post-date \x7b\n            color: #666;\n            font-size: 14px;\n        \x7d\n        .receivers \x7b\n            color: #666;\n            font-size: 14px;\n            margin-bottom: 12px;\n        \x7d\n        .post-body \x7b\n            margin-bottom: 16px;\n            line-height: 1.5;\n        \x7d\n        .images-grid \x7b\n            display: grid;\n            grid-template-columns: repeat(auto-fit, minmax(200px, 1fr));\n            gap: 12px;\n            margin-bottom: 16px;\n        \x7d\n        .image-container \x7b\n            position: relative;\n        \x7d\n        .image-container img \x7b\n            width: 100%;\n            height: auto;\n            border-radius: 8px;\n            cursor: pointer;\n        \x7d\n        .likes \x7b\n            display: flex;\n            align-items: center;\n            gap: 8px;\n            color: #666;\n            font-size: 14px;\n        \x7d\n        .like \x7b\n            display: flex;\n            align-items: center;\n            gap: 4px;\n        \x7d\n        .archive-header \x7b\n            text-align: center;\n            margin-bottom: 40px;\n            padding: 20px;\n            background: white;\n            border-radius: 12px;\n        \x7d\n        .stats \x7b\n            display: flex;\n            justify-content: center;\n            gap: 40px;\n            margin-top: 16px;\n        \x7d\n        .stat \x7b\n            text-align: center;\n        \x7d\n        .stat-number \x7b\n            font-size: 24px;\n            font-weight: 600;\n            color: #333;\n        \x7d\n        .stat-label \x7b\n            color: #666;\n            font-size: 14px;\n        \x7d\n        .observation \x7b\n            background: #f8f9fa;\n            border-left: 4px solid #007bff;\n            padding: 16px;\n            margin: 16px 0;\n            border-radius: 4px;\n        \x7d\n        .observation h4 \x7b\n            margin: 0 0 12px 0;\n            color: #007bff;\n        \x7d\n        .observation-text \x7b\n            margin: 12px 0;\n            line-height: 1.5;\n        \x7d\n        .development-areas \x7b\n            margin: 12px 0;\n        \x7d\n        .area-tag \x7b\n            display: inline-block;\n            background: #e9ecef;\n            padding: 4px 8px;\n            margin: 2px 4px 2px 0;\n            border-radius: 12px;\n            font-size: 12px;\n            color: #495057;\n        \x7d\n    </style>\n</head>\n<body>\n        .navigation \x7b\n            text-align: center;\n            margin-bottom: 20px;\n        \x7d\n        .nav-link \x7b\n            display: inline-block;\n            padding: 8px 16px;\n            margin: 0 8px;\n            background: #007bff;\n            color: white;\n            text-decoration: none;\n            border-radius: 6px;\n        \x7d\n        .nav-link:hover \x7b\n            background: #0056b3;\n        \x7d\n        .nav-link.current \x7b\n            background: #28a745;\n        \x7d\n    </style>\n</head>\n<body>\n    <div class=\"navigation\">\n        <a href=\"index.html\" class=\"nav-link current\">All Posts & Observations</a>\n        <a href=\"posts-only.html\" class=\"nav-link\">Posts Only</a>\n    </div>\n    \n    <div class=\"archive-header\">\n        <h1>Famly Feed Archive</h1>\n        <p>Exported on "

def ixHeadB : String :=
  "</p>\n        <div class=\"stats\">\n            <div class=\"stat\">\n                <div class=\"stat-number\">"

def ixHeadC : String :=
  "</div>\n                <div class=\"stat-label\">Total Items</div>\n            </div>\n            <div class=\"stat\">\n                <div class=\"stat-number\">"

def ixHeadD : String :=
  "</div>\n                <div class=\"stat-label\">Photos</div>\n            </div>\n        </div>\n    </div>\n"

def poHeadA : String :=
  "<!DOCTYPE html>\n<html lang=\"en\">\n<head>\n    <meta charset=\"UTF-8\">\n    <meta name=\"viewport\" content=\"width=device-width, initial-scale=1.0\">\n    <title>Famly Feed Archive - Posts Only</title>\n    <style>\n        body \x7b\n            font-family: -apple-system, BlinkMacSystemFont, \x27Segoe UI\x27, Roboto, sans-serif;\n            max-width: 800px;\n            margin: 0 auto;\n            padding: 20px;\n            background-color: #f5f5f5;\n        \x7d\n        .feed-item \x7b\n            background: white;\n            border-radius: 12px;\n            margin-bottom: 24px;\n            padding: 20px;\n            box-shadow: 0 2px 8px rgba(0,0,0,0.1);\n        \x7d\n        .sender \x7b\n            display: flex;\n            align-items: center;\n            margin-bottom: 12px;\n        \x7d\n        .sender-image \x7b\n            width: 40px;\n            height: 40px;\n            border-radius: 50%;\n            margin-right: 12px;\n            background-color: #ddd;\n        \x7d\n        .sender-info \x7b\n            flex: 1;\n        \x7d\n        .sender-name \x7b\n            font-weight: 600;\n            color: #333;\n        \x7d\n        .post-date \x7b\n            color: #666;\n            font-size: 14px;\n        \x7d\n        .receivers \x7b\n            color: #666;\n            font-size: 14px;\n            margin-bottom: 12px;\n        \x7d\n        .post-body \x7b\n            margin-bottom: 16px;\n            line-height: 1.5;\n        \x7d\n        .images-grid \x7b\n            display: grid;\n            grid-template-columns: repeat(auto-fit, minmax(200px, 1fr));\n            gap: 12px;\n            margin-bottom: 16px;\n        \x7d\n        .image-container \x7b\n            position: relative;\n        \x7d\n        .image-container img \x7b\n            width: 100%;\n            height: auto;\n            border-radius: 8px;\n            cursor: pointer;\n        \x7d\n        .likes \x7b\n            display: flex;\n            align-items: center;\n            gap: 8px;\n            color: #666;\n            font-size: 14px;\n        \x7d\n        .like \x7b\n            display: flex;\n            align-items: center;\n            gap: 4px;\n        \x7d\n        .archive-header \x7b\n            text-align: center;\n            margin-bottom: 40px;\n            padding: 20px;\n            background: white;\n            border-radius: 12px;\n        \x7d\n        .stats \x7b\n            display: flex;\n            justify-content: center;\n            gap: 40px;\n            margin-top: 16px;\n        \x7d\n        .stat \x7b\n            text-align: center;\n        \x7d\n        .stat-number \x7b\n            font-size: 24px;\n            font-weight: 600;\n            color: #333;\n        \x7d\n        .stat-label \x7b\n            color: #666;\n            font-size: 14px;\n        \x7d\n        .navigation \x7b\n            text-align: center;\n            margin-bottom: 20px;\n        \x7d\n        .nav-link \x7b\n            display: inline-block;\n            padding: 8px 16px;\n            margin: 0 8px;\n            background: #007bff;\n            color: white;\n            text-decoration: none;\n            border-radius: 6px;\n        \x7d\n        .nav-link:hover \x7b\n            background: #0056b3;\n        \x7d\n        .nav-link.current \x7b\n            background: #28a745;\n        \x7d\n    </style>\n</head>\n<body>\n    <div class=\"navigation\">\n        <a href=\"index.html\" class=\"nav-link\">All Posts & Observations</a>\n        <a href=\"posts-only.html\" class=\"nav-link current\">Posts Only</a>\n    </div>\n    \n    <div class=\"archive-header\">\n        <h1>Famly Feed Archive - Posts Only</h1>\n        <p>Exported on "

def poHeadB : String :=
  "</p>\n        <div class=\"stats\">\n            <div class=\"stat\">\n                <div class=\"stat-number\">"

def poHeadC : String :=
  "</div>\n                <div class=\"stat-label\">Posts</div>\n            </div>\n            <div class=\"stat\">\n                <div class=\"stat-number\">"

def poHeadD : String :=
  "</div>\n                <div class=\"stat-label\">Photos</div>\n            </div>\n        </div>\n    </div>\n"

/-- Closing text appended after the per-item loop of both pages. -/
def htmlFooter : String :=
  "\n</body>\n</html>"

/-- Body text as transformed by both generators before emission: the
richTextBody value of the snapshot item (the key is always present in
a snapshot, so the dict.get fallback to the plain body never fires);
when non-empty and not starting with an angle bracket it is
HTML-escaped with newlines turned into br tags, otherwise it is kept
as is. -/
def postBodyRendered (it : ArchiveItem) : String :=
  let pb := it.richTextBody
  if pb ≠ "" ∧ headIs '<' pb = false then
    sReplaceChar '\n' "<br>" (htmlEscape pb)
  else pb

/-- Post-body div emitted when the transformed body is non-empty. -/
def postBodyHtml (it : ArchiveItem) : String :=
  let pb := postBodyRendered it
  if pb ≠ "" then "        <div class=\"post-body\">" ++ pb ++ "</div>\n" else ""

/-- Escaped sender name with the Unknown default. -/
def senderNameHtml (it : ArchiveItem) : String :=
  htmlEscape (it.sender.name.getD "Unknown")

/-- Receiver list joined by a comma when non-empty. -/
def receiversStr (it : ArchiveItem) : String :=
  if it.receivers.isEmpty then "" else String.intercalate ", " it.receivers

/-- Opening fragment of one feed item: sender block and date line. -/
def itemHeaderHtml (it : ArchiveItem) : String :=
  "\n    <div class=\"feed-item\">\n        <div class=\"sender\">\n            <div class=\"sender-image\"></div>\n            <div class=\"sender-info\">\n                <div class=\"sender-name\">" ++
  senderNameHtml it ++
  "</div>\n                <div class=\"post-date\">" ++
  formatDate it.createdDate ++
  "</div>\n            </div>\n        </div>\n"

/-- Receivers line, emitted only when the joined string is non-empty. -/
def receiversHtml (it : ArchiveItem) : String :=
  let r := receiversStr it
  if r ≠ "" then "        <div class=\"receivers\">To: " ++ htmlEscape r ++ "</div>\n" else ""

/-- Image grid of the direct post images, emitted when non-empty. -/
def imagesGridHtml (images : List LocalImage) : String :=
  if images.isEmpty then ""
  else
    "        <div class=\"images-grid\">\n" ++
    String.join (images.map (fun image =>
      "            <div class=\"image-container\">\n                <img src=\"images/" ++
      image.filename ++ "\" alt=\"Photo\" loading=\"lazy\">\n            </div>\n")) ++
    "        </div>\n"

/-- Remark body selected by the generator: richTextBody when that key
is present, else the plain body, defaulting to empty. -/
def obsRemarkBody (remark : Remark) : String :=
  match remark.richTextBody with
  | some v => v
  | none => remark.body.getD ""

/-- Observation-text div: the remark body is inserted verbatim, with
no escaping and no newline conversion. -/
def obsRemarkHtml (remark : Remark) : String :=
  let b := obsRemarkBody remark
  if b ≠ "" then "            <div class=\"observation-text\">" ++ b ++ "</div>\n" else ""

/-- Development-areas block: titles are escaped, refinements are not. -/
def obsAreasHtml (remark : Remark) : String :=
  match remark.areas with
  | some areas =>
    if areas.isEmpty then ""
    else
      "            <div class=\"development-areas\">\n                <strong>Development Areas:</strong>\n" ++
      String.join (areas.map (fun a =>
        "                <span class=\"area-tag\">" ++ htmlEscape a.area.title ++
        " (" ++ a.refinement.getD "" ++ ")</span>\n")) ++
      "            </div>\n"
  | none => ""

/-- Observer line of the observation block. -/
def obsObserverHtml (obs : Observation) : String :=
  match obs.createdBy with
  | some cb => "            <p><strong>Observer:</strong> " ++ htmlEscape cb.name.fullName ++ "</p>\n"
  | none => ""

/-- Remark section: remark text and development areas, both skipped
when the record carries no remark. -/
def obsRemarkSection (obs : Observation) : String :=
  match obs.remark with
  | some r => obsRemarkHtml r ++ obsAreasHtml r
  | none => ""

/-- Grid of the downloaded observation images, emitted when
non-empty. -/
def obsImagesHtml (oimgs : List ObsLocalImage) : String :=
  if oimgs.isEmpty then ""
  else
    "            <div class=\"images-grid\">\n" ++
    String.join (oimgs.map (fun oi =>
      "                <div class=\"image-container\">\n                    <img src=\"images/" ++
      oi.filename ++ "\" alt=\"Observation Photo\" loading=\"lazy\">\n                </div>\n")) ++
    "            </div>\n"

/-- Observation block of the full page: emitted only when the embed is
of type Observation and its observation id is truthy and resolves in
the lookup; empty in every other case. -/
def renderObsBlock (observations : List (String × Observation)) (it : ArchiveItem) : String :=
  match it.embed with
  | some e =>
    if e.type == some "Observation" then
      match e.observationId with
      | some oid =>
        if oid ≠ "" then
          match dictLookup observations oid with
          | some obs =>
            "        <div class=\"observation\">\n            <h4>📝 Observation</h4>\n" ++
            obsObserverHtml obs ++ obsRemarkSection obs ++
            obsImagesHtml it.observation_images ++
            "        </div>\n"
          | none => ""
        else ""
      | none => ""
    else ""
  | none => ""

/-- Likes block, emitted when the likes list is non-empty. -/
def likesHtml (it : ArchiveItem) : String :=
  if it.likes.isEmpty then ""
  else
    "        <div class=\"likes\">\n" ++
    String.join (it.likes.map (fun like =>
      "            <div class=\"like\">" ++ like.reaction.getD "❤️" ++ " " ++
      htmlEscape (like.name.getD "Someone") ++ "</div>\n")) ++
    "        </div>\n"

/-- One item of the full page, observation block included. -/
def renderItemFull (observations : List (String × Observation)) (it : ArchiveItem) : String :=
  itemHeaderHtml it ++ receiversHtml it ++ postBodyHtml it ++
  imagesGridHtml it.images ++ renderObsBlock observations it ++ likesHtml it ++
  "    </div>\n"

/-- One item of the posts-only page: same fragments without the
observation block. -/
def renderItemPost (it : ArchiveItem) : String :=
  itemHeaderHtml it ++ receiversHtml it ++ postBodyHtml it ++
  imagesGridHtml it.images ++ likesHtml it ++
  "    </div>\n"

/-- Filter of generate_posts_only_html: keep an item unless its embed
tag is present with type Observation. -/
def isObservationItem (it : ArchiveItem) : Bool :=
  match it.embed with
  | some e => e.type == some "Observation"
  | none => false

/-- Items of the posts-only page. -/
def postsOnly (items : List ArchiveItem) : List ArchiveItem :=
  items.filter (fun it => !(isObservationItem it))

/-- Everything of the full page after the stamped export date: rest of
the header with the two counters, the item loop, and the footer. -/
def indexTail (items : List ArchiveItem) (observations : List (String × Observation)) : String :=
  let totalPhotos := (items.map (fun it => it.images.length + it.observation_images.length)).sum
  ixHeadB ++ toString items.length ++ ixHeadC ++ toString totalPhotos ++ ixHeadD ++
  String.join (items.map (renderItemFull observations)) ++ htmlFooter

/-- Embedding of generate_html: the full page is the header up to the
export date, the stamped date, and the date-independent tail. -/
def genIndexHtml (items : List ArchiveItem) (observations : List (String × Observation))
    (today : String) : String :=
  ixHeadA ++ today ++ indexTail items observations

/-- Everything of the posts-only page after the stamped export date. -/
def postsOnlyTail (items : List ArchiveItem) : String :=
  let posts := postsOnly items
  let totalPhotos := (posts.map (fun it => it.images.length)).sum
  poHeadB ++ toString posts.length ++ poHeadC ++ toString totalPhotos ++ poHeadD ++
  String.join (posts.map renderItemPost) ++ htmlFooter

/-- Embedding of generate_posts_only_html. -/
def genPostsOnlyHtml (items : List ArchiveItem) (today : String) : String :=
  poHeadA ++ today ++ postsOnlyTail items


/-! ## Helper lemmas and ordering instances -/

/-- Appending anything to a non-empty string stays non-empty. -/
theorem strAppend_ne_empty {s t : String} (h : s ≠ "") : s ++ t ≠ "" := by
  intro he
  apply h
  have hd := congrArg String.data he
  rw [String.data_append] at hd
  exact String.ext (List.append_eq_nil.mp hd).1

instance : IsTotal FeedRecord feedOrder :=
  ⟨fun a b => le_total (sortKey b) (sortKey a)⟩

instance : IsTrans FeedRecord feedOrder :=
  ⟨fun _ _ _ hab hbc => le_trans hbc hab⟩

/-! ## Demonstration data used by witnesses and counterexamples -/

/-- Image reference with a usable url_big carrying an upper-case
extension and a query string. -/
def demoImgOk : ImageRef :=
  { imageId := "img1", url := none, url_big := some "https://x/a.PNG?x=1",
    width := some 100, height := some 50, createdAtDate := none, tags := none }

/-- Image reference whose only URL is the plain url field. -/
def demoImgFail : ImageRef :=
  { imageId := "img2", url := some "https://x/b.jpg", url_big := none,
    width := none, height := none, createdAtDate := none, tags := none }

/-- Image reference whose url_big key is present but empty while the
plain url field is usable. -/
def demoImgEmptyBig : ImageRef :=
  { imageId := "img7", url := some "https://x/u.jpg", url_big := some "",
    width := none, height := none, createdAtDate := none, tags := none }

/-- Plain post record with two image references and no embed. -/
def demoRec1 : FeedRecord :=
  { feedItemId := some "item-1", sender := some { name := some "Alice" },
    receivers := some ["Bob"], body := some "Hi", richTextBody := none,
    createdDate := some "2025-08-01T10:00:00Z", images := some [demoImgOk, demoImgFail],
    likes := none, comments := none, embed := none }

/-- Record embedding the observation obs-1. -/
def demoRec2 : FeedRecord :=
  { feedItemId := some "item-2", sender := none, receivers := none, body := none,
    richTextBody := none, createdDate := some "2025-08-02T10:00:00Z", images := none,
    likes := none, comments := none,
    embed := some { type := some "Observation", observationId := some "obs-1" } }

/-- Two-record input feed. -/
def demoFeedItems : List FeedRecord := [demoRec1, demoRec2]

/-- Observation referenced by demoRec2. -/
def demoObs : Observation :=
  { id := "obs-1", createdBy := some { name := { fullName := "Carol" } },
    remark := some { richTextBody := some "<p>note</p>", body := none, areas := none },
    images := none }

/-- Demonstration feed document. -/
def demoFeed : FeedDocument :=
  { feedItems := some demoFeedItems, observations := some [demoObs],
    exportDate := some "2025-08-29" }

/-- Observation lookup holding obs-1. -/
def demoObsPairs : List (String × Observation) := [("obs-1", demoObs)]

/-- Snapshot item whose embed is an Observation resolving to obs-1. -/
def demoResolvedItem : ArchiveItem :=
  { feedItemId := "item-2", sender := { name := none }, receivers := [], body := "",
    richTextBody := "", createdDate := "2025-08-02T10:00:00Z", images := [], likes := [],
    comments := [],
    embed := some { type := some "Observation", observationId := some "obs-1" },
    observation_images := [] }

/-- Snapshot item without an embed. -/
def demoPlainItem : ArchiveItem :=
  { feedItemId := "item-1", sender := { name := some "Alice" }, receivers := ["Bob"],
    body := "Hi", richTextBody := "", createdDate := "2025-08-01T10:00:00Z", images := [],
    likes := [], comments := [], embed := none, observation_images := [] }

/-- Observation whose id is the empty string. -/
def demoEmptyIdObs : Observation :=
  { id := "", createdBy := none,
    remark := some { richTextBody := some "<p>hi</p>", body := none, areas := none },
    images := none }

/-- Lookup keyed by the empty string. -/
def demoEmptyIdPairs : List (String × Observation) := [("", demoEmptyIdObs)]

/-- Snapshot item whose Observation embed carries the empty string as
observation id. -/
def demoEmptyIdItem : ArchiveItem :=
  { feedItemId := "item-e", sender := { name := none }, receivers := [], body := "",
    richTextBody := "", createdDate := "", images := [], likes := [], comments := [],
    embed := some { type := some "Observation", observationId := some "" },
    observation_images := [] }

/-- Feed record matching demoEmptyIdItem. -/
def demoEmptyIdRec : FeedRecord :=
  { feedItemId := some "item-e", sender := none, receivers := none, body := none,
    richTextBody := none, createdDate := none, images := none, likes := none,
    comments := none,
    embed := some { type := some "Observation", observationId := some "" } }

/-- Snapshot item with an empty rich-text body but a non-empty plain
body. -/
def demoEmptyRichItem : ArchiveItem :=
  { feedItemId := "item-r", sender := { name := none }, receivers := [], body := "Hi",
    richTextBody := "", createdDate := "", images := [], likes := [], comments := [],
    embed := none, observation_images := [] }

/-- Snapshot item whose rich-text body is plain text containing an
angle bracket not in leading position. -/
def demoPlainRichItem : ArchiveItem :=
  { feedItemId := "item-p", sender := { name := none }, receivers := [], body := "",
    richTextBody := "a<b", createdDate := "", images := [], likes := [], comments := [],
    embed := none, observation_images := [] }

/-- Remark whose rich text contains HTML-unsafe characters and a
newline. -/
def demoUnsafeRemark : Remark :=
  { richTextBody := some "a<b&c\n\x27d\"e", body := none, areas := none }

/-- Observation carrying demoUnsafeRemark. -/
def demoUnsafeObs : Observation :=
  { id := "obs-u", createdBy := none, remark := some demoUnsafeRemark, images := none }

/-! ## Claims -/

/-- C1: for every valid feed document the snapshot holds exactly one
processed item per input feed record, whatever the image-fetch
outcomes: the length of processed_items equals the length of the
feedItems array. -/
theorem c1_snapshot_item_count (fetchOk : String → Bool) (feed : FeedDocument)
    (items : List FeedRecord) (h : feed.feedItems = some items) :
    (downloadAllImages fetchOk feed).processed_items.length = items.length := by
  simp only [downloadAllImages, h, Option.getD_some, List.length_map]
  exact (List.perm_insertionSort feedOrder items).length_eq

/-- Witness for C1 on the two-record demonstration feed. -/
theorem c1_snapshot_item_count_witness :
    demoFeed.feedItems = some demoFeedItems ∧
    (downloadAllImages (fun _ => true) demoFeed).processed_items.length
      = demoFeedItems.length :=
  ⟨rfl, c1_snapshot_item_count (fun _ => true) demoFeed demoFeedItems rfl⟩

/-- C2: the items persisted into the snapshot are ordered by
createdDate descending (missing dates as empty string), and their
dates are a permutation of the input keys; the stage is a pure
function, so re-running on identical input reproduces the order. -/
theorem c2_snapshot_sorted_desc (fetchOk : String → Bool) (feed : FeedDocument) :
    List.Sorted (fun a b : ArchiveItem => b.createdDate ≤ a.createdDate)
      (downloadAllImages fetchOk feed).processed_items ∧
    ((downloadAllImages fetchOk feed).processed_items.map ArchiveItem.createdDate).Perm
      ((feed.feedItems.getD []).map sortKey) := by
  constructor
  · simp only [downloadAllImages]
    exact (List.sorted_insertionSort feedOrder (feed.feedItems.getD [])).map
      (processFeedItem fetchOk (buildObservations feed)) (fun a b hab => hab)
  · simp only [downloadAllImages, List.map_map]
    exact (List.perm_insertionSort feedOrder (feed.feedItems.getD [])).map sortKey

/-- Keep-predicate of claim C3 stated from its words: embed tag absent
or embed type different from Observation. -/
def specPostsKeep (it : ArchiveItem) : Bool :=
  match it.embed with
  | none => true
  | some e => !(e.type == some "Observation")

/-- C3: the posts-only view is exactly the subsequence of the full
item list whose embed tag is absent or not of type Observation; every
Observation-tagged item is excluded regardless of whether its id
resolves (the filter never consults the lookup), and every posts-only
item appears in the full view. -/
theorem c3_posts_only_subsequence (items : List ArchiveItem) :
    postsOnly items = items.filter specPostsKeep ∧
    (postsOnly items).Sublist items ∧
    (∀ it ∈ items, isObservationItem it = true → it ∉ postsOnly items) ∧
    (∀ it ∈ postsOnly items, it ∈ items) := by
  refine ⟨?_, List.filter_sublist items, ?_, ?_⟩
  · unfold postsOnly
    apply List.filter_congr
    intro it _
    cases h : it.embed <;> simp [specPostsKeep, isObservationItem, h]
  · intro it _ hobs hin
    have := (List.mem_filter.mp hin).2
    simp [isObservationItem] at this hobs
    simp [hobs] at this
  · intro it hin
    exact (List.mem_filter.mp hin).1

/-- Witness for C3: the Observation-tagged demonstration item is
excluded from the posts-only view. -/
theorem c3_posts_only_subsequence_witness :
    demoResolvedItem ∉ postsOnly [demoResolvedItem, demoPlainItem] :=
  (c3_posts_only_subsequence [demoResolvedItem, demoPlainItem]).2.2.1 demoResolvedItem
    (List.mem_cons_self _ _) rfl

/-- C4: a failed acquisition returns the None sentinel instead of
raising, the failed image is simply absent from the image list of the
still-emitted item (which collects exactly the successful downloads in
order), and every feed record is still processed. -/
theorem c4_failed_image_skipped (fetchOk : String → Bool)
    (observations : List (String × Observation)) (item : FeedRecord) :
    (processFeedItem fetchOk observations item).images
      = (item.images.getD []).filterMap (acquireDirect fetchOk) ∧
    (∀ url id, fetchOk url = false → downloadImage fetchOk url id = none) ∧
    (∀ image : ImageRef, ∀ u, resolveImageUrl image = some u → fetchOk u = false →
      acquireDirect fetchOk image = none) ∧
    (∀ feed : FeedDocument,
      (downloadAllImages fetchOk feed).processed_items.length
        = (feed.feedItems.getD []).length) := by
  refine ⟨rfl, ?_, ?_, ?_⟩
  · intro url id h
    simp [downloadImage, h]
  · intro image u hres hfail
    unfold acquireDirect
    rw [hres]
    by_cases hu : u = ""
    · simp [hu]
    · simp [hu, downloadImage, hfail]
  · intro feed
    simp only [downloadAllImages, List.length_map]
    exact (List.perm_insertionSort feedOrder (feed.feedItems.getD [])).length_eq

/-- Witness for C4 with the everything-fails oracle: the sentinel is
returned, the item list is empty, and both demonstration records are
still emitted. -/
theorem c4_failed_image_skipped_witness :
    downloadImage (fun _ => false) "https://x/b.jpg" "img2" = none ∧
    acquireDirect (fun _ => false) demoImgFail = none ∧
    (downloadAllImages (fun _ => false) demoFeed).processed_items.length = 2 := by
  refine ⟨?_, ?_, ?_⟩
  · exact (c4_failed_image_skipped (fun _ => false) [] demoRec1).2.1 "https://x/b.jpg" "img2" rfl
  · exact (c4_failed_image_skipped (fun _ => false) [] demoRec1).2.2.1 demoImgFail
      "https://x/b.jpg" rfl rfl
  · exact ((c4_failed_image_skipped (fun _ => false) [] demoRec1).2.2.2 demoFeed).trans rfl

/-- Condition of claim C5 read literally: embed of type Observation
whose observationId is a key of the observation lookup, with no
requirement that the id be non-empty. -/
def c5ClaimCond (observations : List (String × Observation)) (embed : Option Embed) : Bool :=
  match embed with
  | some e =>
    (e.type == some "Observation") &&
      (match e.observationId with
       | some oid => dictContains observations oid
       | none => false)
  | none => false

/-- Condition of claim C5 as amended: the observationId must moreover
be non-empty, matching the Python truthiness guard of the source. -/
def c5AmendedCond (observations : List (String × Observation)) (embed : Option Embed) : Bool :=
  match embed with
  | some e =>
    (e.type == some "Observation") &&
      (match e.observationId with
       | some oid => (oid != "") && dictContains observations oid
       | none => false)
  | none => false

/-- Counterexample to C5 as stated: with an observation keyed by the
empty string and an embed whose observationId is the empty string, the
claimed condition holds, yet the generator emits no observation block
and the downloader attaches no observation images. -/
theorem c5_counterexample :
    c5ClaimCond demoEmptyIdPairs demoEmptyIdItem.embed = true ∧
    renderObsBlock demoEmptyIdPairs demoEmptyIdItem = "" ∧
    (processFeedItem (fun _ => true) demoEmptyIdPairs demoEmptyIdRec).observation_images
      = [] := by
  refine ⟨by decide, rfl, rfl⟩

/-- C5 (amended): an item carries a rendered observation section iff
its embed is of type Observation with a non-empty observationId that
is a key of the lookup, and a record failing that condition normalizes
with an empty observation-image list; both functions are total, so no
input raises. -/
theorem c5_amended_observation_iff (observations : List (String × Observation))
    (it : ArchiveItem) (r : FeedRecord) (fetchOk : String → Bool) :
    (renderObsBlock observations it ≠ "" ↔ c5AmendedCond observations it.embed = true) ∧
    (c5AmendedCond observations r.embed = false →
      (processFeedItem fetchOk observations r).observation_images = []) := by
  constructor
  · cases hemb : it.embed with
    | none => simp [renderObsBlock, c5AmendedCond, hemb]
    | some e =>
      by_cases ht : e.type = some "Observation"
      · cases hoid : e.observationId with
        | none => simp [renderObsBlock, c5AmendedCond, hemb, ht, hoid]
        | some oid =>
          by_cases ho : oid = ""
          · simp [renderObsBlock, c5AmendedCond, hemb, ht, hoid, ho]
          · cases hl : dictLookup observations oid with
            | none =>
              simp [renderObsBlock, c5AmendedCond, dictContains, hemb, ht, hoid, ho, hl]
            | some obs =>
              have hne : renderObsBlock observations it ≠ "" := by
                unfold renderObsBlock
                rw [hemb]
                simp only [ht, beq_self_eq_true, if_true, hoid]
                rw [if_pos ho]
                simp only [hl]
                exact strAppend_ne_empty (strAppend_ne_empty (strAppend_ne_empty
                  (strAppend_ne_empty (by decide))))
              have hc : c5AmendedCond observations (some e) = true := by
                simp [c5AmendedCond, ht, hoid, ho, dictContains, hl]
              exact iff_of_true hne hc
      · simp [renderObsBlock, c5AmendedCond, hemb, ht]
  · intro hc
    show acquireObservationImages fetchOk observations r.embed = []
    cases hemb : r.embed with
    | none => rfl
    | some e =>
      rw [hemb] at hc
      unfold acquireObservationImages
      by_cases ht : e.type = some "Observation"
      · cases hoid : e.observationId with
        | none => simp [ht, hoid]
        | some oid =>
          by_cases ho : oid = ""
          · simp [ht, hoid, ho]
          · cases hl : dictLookup observations oid with
            | none => simp [ht, hoid, ho, hl]
            | some obs =>
              exfalso
              simp [c5AmendedCond, ht, hoid, ho, dictContains, hl] at hc
      · simp [ht]

/-- Witness for C5 (amended): the resolving demonstration item renders
an observation section, and a record without an embed normalizes with
no observation images. -/
theorem c5_amended_observation_iff_witness :
    renderObsBlock demoObsPairs demoResolvedItem ≠ "" ∧
    (processFeedItem (fun _ => true) demoObsPairs demoRec1).observation_images = [] := by
  constructor
  · exact (c5_amended_observation_iff demoObsPairs demoResolvedItem demoRec1
      (fun _ => true)).1.mpr (by decide)
  · exact (c5_amended_observation_iff demoObsPairs demoResolvedItem demoRec1
      (fun _ => true)).2 (by decide)

/-- Body rendering of claim C6 read literally: the rich-text form
verbatim when non-empty, otherwise the plain-text form HTML-escaped
with newlines converted to br tags. -/
def c6ClaimBody (it : ArchiveItem) : String :=
  if it.richTextBody ≠ "" then it.richTextBody
  else sReplaceChar '\n' "<br>" (htmlEscape it.body)

/-- Counterexample to C6 as stated: a snapshot item with an empty
rich-text body and plain body Hi renders no body at all (the plain
body is never consulted because the snapshot always carries the
rich-text key), and a non-empty rich-text body not starting with an
angle bracket is escaped rather than emitted verbatim. -/
theorem c6_counterexample :
    postBodyRendered demoEmptyRichItem = "" ∧
    postBodyHtml demoEmptyRichItem = "" ∧
    c6ClaimBody demoEmptyRichItem = "Hi" ∧
    postBodyRendered demoPlainRichItem = "a&lt;b" ∧
    c6ClaimBody demoPlainRichItem = "a<b" := by
  refine ⟨by decide, by decide, by decide, by decide, by decide⟩

/-- C6 (amended): the rendered body is the rich-text field of the
snapshot item; a non-empty value starting with an angle bracket is
emitted verbatim, any other non-empty value is HTML-escaped with
newlines converted to br tags, and an empty value emits no body
element. -/
theorem c6_amended_body_rule (it : ArchiveItem) :
    postBodyRendered it =
      (if it.richTextBody = "" then ""
       else if headIs '<' it.richTextBody then it.richTextBody
       else sReplaceChar '\n' "<br>" (htmlEscape it.richTextBody)) ∧
    postBodyHtml it =
      (if postBodyRendered it = "" then ""
       else "        <div class=\"post-body\">" ++ postBodyRendered it ++ "</div>\n") := by
  constructor
  · unfold postBodyRendered
    by_cases h1 : it.richTextBody = ""
    · simp [h1]
    · by_cases h2 : headIs '<' it.richTextBody
      · simp [h1, h2]
      · simp [h1, h2]
  · unfold postBodyHtml
    by_cases h : postBodyRendered it = ""
    · simp [h]
    · simp [h]

/-- URL selection of claim C7 read literally, with usable meaning
present and non-empty: prefer a usable url_big, else a usable url,
else skip. -/
def c7ClaimUrl (image : ImageRef) : Option String :=
  match image.url_big with
  | some u =>
    if u ≠ "" then some u
    else
      match image.url with
      | some v => if v ≠ "" then some v else none
      | none => none
  | none =>
    match image.url with
    | some v => if v ≠ "" then some v else none
    | none => none

/-- URL actually attempted by the download loop of process_feed_item:
the resolved candidate when truthy, none when the image is skipped. -/
def attemptedUrl (image : ImageRef) : Option String :=
  match resolveImageUrl image with
  | some u => if u ≠ "" then some u else none
  | none => none

/-- Counterexample to C7 as stated: a reference whose url_big key is
present but empty while url is usable; the claim selects the url
value, but the code attempts no download at all and produces no
image entry even with an always-succeeding fetch. -/
theorem c7_counterexample :
    c7ClaimUrl demoImgEmptyBig = some "https://x/u.jpg" ∧
    attemptedUrl demoImgEmptyBig = none ∧
    acquireDirect (fun _ => true) demoImgEmptyBig = none := by
  refine ⟨by decide, by decide, by decide⟩

/-- C7 (amended): the candidate URL is the url_big value whenever that
key is present (even empty), else the url value; acquisition is
attempted iff the candidate is present and non-empty, and otherwise
the image is skipped silently with no entry. -/
theorem c7_amended_url_selection (image : ImageRef) (fetchOk : String → Bool) :
    attemptedUrl image =
      (match image.url_big with
       | some u => if u = "" then none else some u
       | none =>
         match image.url with
         | some v => if v = "" then none else some v
         | none => none) ∧
    (attemptedUrl image = none → acquireDirect fetchOk image = none) ∧
    (∀ u, attemptedUrl image = some u →
      acquireDirect fetchOk image =
        (downloadImage fetchOk u image.imageId).map (fun fn =>
          { filename := fn, width := image.width.getD 0, height := image.height.getD 0,
            createdAt := image.createdAtDate.getD "", tags := image.tags.getD [] })) := by
  refine ⟨?_, ?_, ?_⟩
  · unfold attemptedUrl resolveImageUrl
    cases hb : image.url_big with
    | some u =>
      by_cases hu : u = "" <;> simp [hu]
    | none =>
      cases hu : image.url with
      | some v => by_cases hv : v = "" <;> simp [hv]
      | none => rfl
  · intro h
    cases hb : image.url_big with
    | some w =>
      simp only [attemptedUrl, resolveImageUrl, hb] at h
      by_cases hw : w = ""
      · simp only [acquireDirect, resolveImageUrl, hb]
        rw [if_neg (not_not_intro hw)]
      · rw [if_pos hw] at h
        exact absurd h (by simp)
    | none =>
      cases hu : image.url with
      | some v =>
        simp only [attemptedUrl, resolveImageUrl, hb, hu] at h
        by_cases hv : v = ""
        · simp only [acquireDirect, resolveImageUrl, hb, hu]
          rw [if_neg (not_not_intro hv)]
        · rw [if_pos hv] at h
          exact absurd h (by simp)
      | none =>
        simp only [acquireDirect, resolveImageUrl, hb, hu]
  · intro u h
    cases hb : image.url_big with
    | some w =>
      simp only [attemptedUrl, resolveImageUrl, hb] at h
      by_cases hw : w = ""
      · rw [if_neg (not_not_intro hw)] at h
        exact absurd h (by simp)
      · rw [if_pos hw] at h
        obtain rfl : w = u := by simpa using h
        simp only [acquireDirect, resolveImageUrl, hb]
        rw [if_pos hw]
        cases downloadImage fetchOk w image.imageId <;> rfl
    | none =>
      cases hu : image.url with
      | some v =>
        simp only [attemptedUrl, resolveImageUrl, hb, hu] at h
        by_cases hv : v = ""
        · rw [if_neg (not_not_intro hv)] at h
          exact absurd h (by simp)
        · rw [if_pos hv] at h
          obtain rfl : v = u := by simpa using h
          simp only [acquireDirect, resolveImageUrl, hb, hu]
          rw [if_pos hv]
          cases downloadImage fetchOk v image.imageId <;> rfl
      | none =>
        simp only [attemptedUrl, resolveImageUrl, hb, hu] at h
        exact absurd h (by simp)

/-- Witness for C7 (amended): the empty-url_big reference yields no
acquisition, and the usable demonstration reference acquires through
its url_big value. -/
theorem c7_amended_url_selection_witness :
    acquireDirect (fun _ => false) demoImgEmptyBig = none ∧
    acquireDirect (fun _ => true) demoImgOk =
      (downloadImage (fun _ => true) "https://x/a.PNG?x=1" "img1").map (fun fn =>
        { filename := fn, width := 100, height := 50, createdAt := "", tags := [] }) := by
  constructor
  · exact (c7_amended_url_selection demoImgEmptyBig (fun _ => false)).2.1 (by decide)
  · exact (c7_amended_url_selection demoImgOk (fun _ => true)).2.2 "https://x/a.PNG?x=1"
      (by decide)

/-- Extension rule of claim C8 stated from its words: the final
dot-delimited segment of the URL path with any query-string fragment
stripped, defaulting to jpg when the path contains no dot. -/
def c8ClaimExt (url : String) : String :=
  let path := urlPathChars url.data
  let segs := splitChar '.' path
  let finalSeg := if segs.length ≤ 1 then "jpg".data else (segs.getLast?).getD []
  String.mk (takeUntilChar '?' finalSeg)

/-- C8: every successful direct-URL acquisition is stored under the
filename id dot extension, with the extension derived exactly as the
claim describes. -/
theorem c8_filename_rule (fetchOk : String → Bool) (url id fn : String)
    (h : downloadImage fetchOk url id = some fn) :
    fn = id ++ "." ++ c8ClaimExt url := by
  have hext : extFromUrl url = c8ClaimExt url := by
    unfold extFromUrl c8ClaimExt
    by_cases hl : (splitChar '.' (urlPathChars url.data)).length ≤ 1
    · simp [hl, Nat.not_lt.mpr hl]
    · simp [hl, Nat.lt_of_not_le hl]
  unfold downloadImage at h
  by_cases hf : fetchOk url = true
  · rw [if_pos hf] at h
    have := Option.some.inj h
    rw [← this, hext]
  · rw [if_neg hf] at h
    exact absurd h (by simp)

/-- Witness for C8: the example of the specification, an upper-case
PNG extension with a query string, acquiring to img1.PNG. -/
theorem c8_filename_rule_witness :
    downloadImage (fun _ => true) "https://x/a.PNG?x=1" "img1" = some "img1.PNG" ∧
    "img1.PNG" = "img1" ++ "." ++ c8ClaimExt "https://x/a.PNG?x=1" :=
  ⟨by decide,
   c8_filename_rule (fun _ => true) "https://x/a.PNG?x=1" "img1" "img1.PNG" (by decide)⟩

/-- C9: both rendered documents are pure functions of the snapshot
content and the stamped export date, and the stamp is the only place
the date enters: for any two dates the outputs share one constant
prefix and one snapshot-determined tail, so two runs over the same
snapshot are byte-identical modulo the stamped date. -/
theorem c9_render_deterministic (items : List ArchiveItem)
    (observations : List (String × Observation)) (d1 d2 : String) :
    genIndexHtml items observations d1 = ixHeadA ++ d1 ++ indexTail items observations ∧
    genIndexHtml items observations d2 = ixHeadA ++ d2 ++ indexTail items observations ∧
    genPostsOnlyHtml items d1 = poHeadA ++ d1 ++ postsOnlyTail items ∧
    genPostsOnlyHtml items d2 = poHeadA ++ d2 ++ postsOnlyTail items :=
  ⟨rfl, rfl, rfl, rfl⟩

/-- C10: the remark body of a resolved observation is inserted into
the rendered section verbatim, with no HTML escaping and no newline
conversion applied. -/
theorem c10_remark_verbatim (obs : Observation) (r : Remark)
    (h1 : obs.remark = some r) (h2 : obsRemarkBody r ≠ "") :
    obsRemarkSection obs =
      ("            <div class=\"observation-text\">" ++ obsRemarkBody r ++ "</div>\n")
        ++ obsAreasHtml r := by
  unfold obsRemarkSection
  simp only [h1, obsRemarkHtml]
  rw [if_pos h2]

/-- Witness for C10: a remark whose rich text holds angle brackets, an
ampersand, a quote and a newline is emitted with those characters
intact. -/
theorem c10_remark_verbatim_witness :
    obsRemarkSection demoUnsafeObs =
      "            <div class=\"observation-text\">a<b&c\n\x27d\"e</div>\n" := by
  rw [c10_remark_verbatim demoUnsafeObs demoUnsafeRemark rfl (by decide)]
  decide

end Famly
